import Mathlib

/-!
Shallow embedding of the MSD-manuals crawl orchestration engine
(`src/code/crawler/main_crawler.py`, `src/code/parsers/content_parser.py`,
`src/code/config/crawler_config.py`, `src/code/complete_data_system.py`)
together with theorems settling the specification claims about it.
-/

namespace Doctor

/-! ### URL model

Python code works with URL strings via `urllib.parse.urlparse` / `urljoin`.
We embed URLs structurally: an absolute URL is a network location (netloc)
plus a path; a raw link (an anchor href) is either absolute or relative.
`urlparse` of a relative link yields an empty netloc, which is what
`_is_allowed_url` sees when handed a relative string.
-/

structure AbsUrl where
  netloc : String
  path : String
deriving DecidableEq

/-- A raw href as it appears in a page: absolute or relative. -/
inductive Link where
  | absolute (netloc : String) (path : String)
  | relative (path : String)
deriving DecidableEq

/-- Model of `urlparse(url).netloc` — empty for a relative URL. -/
def urlparseNetloc : Link → String
  | .absolute n _ => n
  | .relative _ => ""

/-- Model of `urlparse(url).path`. -/
def urlparsePath : Link → String
  | .absolute _ p => p
  | .relative p => p

/-- Directory part of a path: everything up to and including the last slash
(used by relative-reference resolution). -/
def dirnameSlash (p : String) : String :=
  let cs := p.data
  let rev := cs.reverse
  ((rev.drop (rev.takeWhile (fun ch => ch ≠ ('/' : Char))).length).reverse).asString

/-- Model of `urljoin(base, url)`: an absolute href wins outright; a rooted relative
href replaces the path; otherwise the href is resolved against the directory
of the base path. -/
def urljoin (base : AbsUrl) : Link → AbsUrl
  | .absolute n p => ⟨n, p⟩
  | .relative p =>
      if p.startsWith "/" then ⟨base.netloc, p⟩
      else ⟨base.netloc, dirnameSlash base.path ++ p⟩

/-- View an absolute URL back as a link string, as `discover_urls` re-parses
the already-joined URL strings produced by `extract_links`. -/
def toLink (u : AbsUrl) : Link := .absolute u.netloc u.path

/-- Python truthiness of an href string (`if href and text`): a relative
empty href is falsy; an absolute URL string is never empty. -/
def linkTruthy : Link → Bool
  | .absolute _ _ => true
  | .relative p => p ≠ ""

/-! ### Python string primitives

Structural translations of the Python string operations the code relies on
(`str.lower`, `str.strip`, `str.split`, `str.split('\n')`,
`str.startswith`, `sub in s`), written over character lists.
-/

/-- Python `s.lower()` (ASCII case folding, which is all the code compares). -/
def pyLower (s : String) : String := (s.data.map Char.toLower).asString

/-- Python `s.strip()`: drop leading and trailing whitespace. -/
def pyStrip (s : String) : String :=
  (((s.data.dropWhile Char.isWhitespace).reverse.dropWhile
      Char.isWhitespace).reverse).asString

/-- Python `s.startswith(pre)`. -/
def pyStartsWith (s pre : String) : Bool := pre.data.isPrefixOf s.data

/-- Split a character list at every character satisfying `p`, keeping
empty pieces (Python `str.split(sep)` semantics for one separator). -/
def splitPred (p : Char → Bool) : List Char → List Char → List String
  | [], acc => [acc.reverse.asString]
  | x :: xs, acc =>
      if p x then acc.reverse.asString :: splitPred p xs []
      else splitPred p xs (x :: acc)

/-- Python `s.split(sep)` for a one-character separator (keeps empty pieces). -/
def pySplitChar (s : String) (c : Char) : List String :=
  splitPred (fun x => x = c) s.data []

/-- Python `s.split()`: whitespace-separated tokens, empties dropped. -/
def pyTokens (s : String) : List String :=
  (splitPred Char.isWhitespace s.data []).filter (· ≠ "")

/-! ### Configuration (`config/crawler_config.py`) -/

/-- The keys of `DOMAIN_CONFIGS`: the crawl allow-list. -/
def DOMAIN_CONFIG_KEYS : List String :=
  ["www.msdmanuals.com", "www.msdmanuals.cn", "www.msdvetmanual.com"]

structure RetryConfig where
  max_retries : Nat
  backoff_factor : Nat
  retry_status_codes : List Nat
  give_up_status_codes : List Nat
deriving DecidableEq

/-- Embedding of `RETRY_CONFIG` from `config/crawler_config.py` (loaded into the engine
configuration under the key `retry`). -/
def RETRY_CONFIG : RetryConfig :=
  { max_retries := 3
    backoff_factor := 2
    retry_status_codes := [429, 500, 502, 503, 504]
    give_up_status_codes := [403, 404, 451] }

/-! ### URL filtering (`MSDManualsCrawler._is_allowed_url`) -/

/-- Python substring test `sub in s` on character lists. -/
def strContains (s sub : String) : Bool :=
  s.data.tails.any (fun t => sub.data.isPrefixOf t)

/-- The hard-coded disallow list of `_is_allowed_url`. -/
def disallowed_paths : List String :=
  ["/sitecore/", "/custom/", "/news/external/", "/multimedia/zk/",
   "/downloadtextfile", "/pagerevalidation", "/bigqueryexport"]

/-- Embedding of `MSDManualsCrawler._is_allowed_url`: domain must be one of the
configured domains (lower-cased comparison) and the lower-cased path must
contain no disallowed fragment. -/
def is_allowed_url (u : Link) : Bool :=
  let domain := pyLower (urlparseNetloc u)
  let allowed_domains := DOMAIN_CONFIG_KEYS.map pyLower
  if ¬ allowed_domains.contains domain then false
  else
    let path := pyLower (urlparsePath u)
    ¬ disallowed_paths.any (fun d => strContains path d)

/-! ### Link extraction (`MSDContentParser._extract_links_from_soup`)

The parser walks every anchor with an href; when both the href and the
cleaned anchor text are non-empty it resolves the href against the page URL
with `urljoin` and records the absolute URL together with the text.
-/

def extract_links (anchors : List (Link × String)) (base : AbsUrl) :
    List (AbsUrl × String) :=
  anchors.filterMap (fun a =>
    if linkTruthy a.1 && a.2 ≠ "" then some (urljoin base a.1, a.2) else none)

/-! ### Link discovery (`MSDManualsCrawler.discover_urls`) -/

/-- Python `set.add` on a set represented as a duplicate-free list in
insertion order: a no-op when the element is present. -/
def setAdd (l : List AbsUrl) (u : AbsUrl) : List AbsUrl :=
  if u ∈ l then l else l ++ [u]

/-- A frontier entry as pushed by `discover_urls` / `_initialize_urls`. -/
structure QueueEntry where
  url : AbsUrl
  text : String
  source_url : Option AbsUrl
deriving DecidableEq

/-- Embedding of `MSDManualsCrawler.discover_urls`: iterate over the links returned by
`extract_links` (already absolute); keep a link when `_is_allowed_url`
accepts its string form and its joined form is neither in the in-memory
seen-set nor in the persisted processed set; enqueue it and mark it seen. -/
def discover_urls (pageUrl : AbsUrl) (processed : List AbsUrl) :
    List (AbsUrl × String) → List AbsUrl → List QueueEntry
  | [], _ => []
  | (u, t) :: rest, seen =>
      if is_allowed_url (toLink u) then
        let full := urljoin pageUrl (toLink u)
        if full ∉ seen ∧ full ∉ processed then
          ⟨full, t, some pageUrl⟩ ::
            discover_urls pageUrl processed rest (setAdd seen full)
        else discover_urls pageUrl processed rest seen
      else discover_urls pageUrl processed rest seen

/-! ### Run state (`CrawlerState`) -/

/-- One `error_log` entry: `{url, error, timestamp}`. -/
structure ErrorEntry where
  url : AbsUrl
  error : String
  timestamp : String
deriving DecidableEq

/-- The `CrawlerState.state` dictionary.  The two Python sets are modelled
as duplicate-free lists in insertion order; `processing_time` (a float of
seconds) as a rational. -/
structure StateData where
  last_saved : Option String
  urls_processed : Nat
  successful_downloads : Nat
  landing_pages_skipped : Nat
  failed_downloads : Nat
  parse_errors : Nat
  duplicates_found : Nat
  new_articles_created : Nat
  existing_articles_updated : Nat
  processing_time : ℚ
  current_url : Option AbsUrl
  error_log : List ErrorEntry
  processed_urls : List AbsUrl
  failed_urls : List AbsUrl
  checkpoint_urls : List AbsUrl
deriving DecidableEq

/-- The freshly initialised state of `CrawlerState.__init__`. -/
def initialState : StateData :=
  { last_saved := none
    urls_processed := 0
    successful_downloads := 0
    landing_pages_skipped := 0
    failed_downloads := 0
    parse_errors := 0
    duplicates_found := 0
    new_articles_created := 0
    existing_articles_updated := 0
    processing_time := 0
    current_url := none
    error_log := []
    processed_urls := []
    failed_urls := []
    checkpoint_urls := [] }

/-- Embedding of `CrawlerState.add_processed_url`: insert into the processed set and
recompute the counter from the set size. -/
def add_processed_url (s : StateData) (url : AbsUrl) : StateData :=
  let processed := setAdd s.processed_urls url
  { s with processed_urls := processed, urls_processed := processed.length }

/-- Embedding of `CrawlerState.add_failed_url`: insert into the failed set and append an
error-log entry stamped with the current time. -/
def add_failed_url (s : StateData) (url : AbsUrl) (msg ts : String) :
    StateData :=
  { s with
    failed_urls := setAdd s.failed_urls url
    error_log := s.error_log ++ [⟨url, msg, ts⟩] }

/-- The serialised checkpoint written by `save_state`: the same record with
both sets converted to lists for JSON. -/
structure SavedState where
  last_saved : Option String
  urls_processed : Nat
  successful_downloads : Nat
  landing_pages_skipped : Nat
  failed_downloads : Nat
  parse_errors : Nat
  duplicates_found : Nat
  new_articles_created : Nat
  existing_articles_updated : Nat
  processing_time : ℚ
  current_url : Option AbsUrl
  error_log : List ErrorEntry
  processed_urls : List AbsUrl
  failed_urls : List AbsUrl
  checkpoint_urls : List AbsUrl
deriving DecidableEq

/-- Embedding of `CrawlerState.save_state`: stamp `last_saved` with the current time and
serialise, with `processed_urls` / `failed_urls` written out as JSON arrays
(`list(...)` over the set enumeration). -/
def save_state (s : StateData) (now : String) : SavedState :=
  { last_saved := some now
    urls_processed := s.urls_processed
    successful_downloads := s.successful_downloads
    landing_pages_skipped := s.landing_pages_skipped
    failed_downloads := s.failed_downloads
    parse_errors := s.parse_errors
    duplicates_found := s.duplicates_found
    new_articles_created := s.new_articles_created
    existing_articles_updated := s.existing_articles_updated
    processing_time := s.processing_time
    current_url := s.current_url
    error_log := s.error_log
    processed_urls := s.processed_urls
    failed_urls := s.failed_urls
    checkpoint_urls := s.checkpoint_urls }

/-- Embedding of `CrawlerState.load_state` on an existing checkpoint file: every saved
key overwrites the default, and the two URL arrays are turned back into
sets (`set(...)`, which removes any duplicates). -/
def load_state (sv : SavedState) : StateData :=
  { last_saved := sv.last_saved
    urls_processed := sv.urls_processed
    successful_downloads := sv.successful_downloads
    landing_pages_skipped := sv.landing_pages_skipped
    failed_downloads := sv.failed_downloads
    parse_errors := sv.parse_errors
    duplicates_found := sv.duplicates_found
    new_articles_created := sv.new_articles_created
    existing_articles_updated := sv.existing_articles_updated
    processing_time := sv.processing_time
    current_url := sv.current_url
    error_log := sv.error_log
    processed_urls := sv.processed_urls.dedup
    failed_urls := sv.failed_urls.dedup
    checkpoint_urls := sv.checkpoint_urls }

/-! ### Checkpoint file writes (`save_state`, lines 63-64)

`save_state` runs `open(state_file, 'w')` — which truncates the file —
and then `json.dump` writes the payload into it.  We record the file
operations it performs and the successive contents of the checkpoint file,
to reason about what a crash part-way through a save can leave behind.
-/

inductive FileOp where
  | openTruncate
  | writeAll (text : String)
deriving DecidableEq

/-- The file operations performed by one `save_state` call on the
checkpoint file: truncate on open, then write the serialised payload. -/
def save_state_ops (text : String) : List FileOp := [.openTruncate, .writeAll text]

def apply_op (_content : String) : FileOp → String
  | .openTruncate => ""
  | .writeAll t => t

/-- Successive contents of the checkpoint file while a list of operations
runs against it (the states a crash could leave behind). -/
def file_states (content : String) : List FileOp → List String
  | [] => []
  | op :: rest =>
      let c := apply_op content op
      c :: file_states c rest

/-! ### Fetching (`MSDManualsCrawler._download_page`)

`_download_page` issues exactly one `session.get` and calls
`raise_for_status()` on the response; any HTTP error status raises
immediately.  We model the network as the sequence of statuses the server
would return on successive attempts; the code only ever looks at the first.
-/

/-- Model of `response.raise_for_status()`: 4xx/5xx statuses raise. -/
def raise_for_status (status : Nat) : Except String Nat :=
  if 400 ≤ status ∧ status < 600 then .error (toString status) else .ok status

/-- Embedding of `MSDManualsCrawler._download_page`: one request, no retry loop. -/
def download_page (net : Nat → Nat) : Except String Nat :=
  raise_for_status (net 0)

/-! ### Database save (`MSDManualsCrawler._save_to_database`) -/

/-- A stored article row (`database/models.py: Article`), restricted to the
fields `_save_to_database` touches. -/
structure Article where
  url : AbsUrl
  title : String
  content : String
  category : String
  subcategory : String
  version : String
  language : String
  hash_content : String
  word_count : Nat
  updated_at : Option String
deriving DecidableEq

/-- The candidate record handed to `_save_to_database` (the relevant keys
of the processed-data dict; a missing key is `none`, matching
`data.get(...)`). -/
structure SaveData where
  url : AbsUrl
  title : Option String
  content : Option String
  category : Option String
  subcategory : Option String
  language : Option String
  version : Option String
deriving DecidableEq

/-- Python `len(s.split())`: whitespace-separated word count. -/
def countWords (s : String) : Nat := (pyTokens s).length

structure SaveResult where
  db : AbsUrl → Option Article
  wasInsert : Bool

/-- Embedding of `MSDManualsCrawler._save_to_database`, parameterised by the content
fingerprint function (`hashlib.sha256(...).hexdigest()` in the source).
If a row with the same URL exists, every field of it — including the
fingerprint — is overwritten from the candidate data; otherwise a new row
is inserted. -/
def save_to_database (hash : String → String) (db : AbsUrl → Option Article)
    (data : SaveData) (now : String) : SaveResult :=
  let content_hash := hash (data.content.getD "")
  match db data.url with
  | some ex =>
      let updated : Article :=
        { url := ex.url
          title := data.title.getD ex.title
          content := data.content.getD ex.content
          category := data.category.getD ex.category
          subcategory := data.subcategory.getD ex.subcategory
          language := data.language.getD ex.language
          version := data.version.getD ex.version
          hash_content := content_hash
          word_count :=
            match data.content with
            | some c => if c ≠ "" then countWords c else ex.word_count
            | none => ex.word_count
          updated_at := some now }
      { db := fun u => if u = data.url then some updated else db u
        wasInsert := false }
  | none =>
      let fresh : Article :=
        { url := data.url
          title := data.title.getD ""
          content := data.content.getD ""
          category := data.category.getD ""
          subcategory := data.subcategory.getD ""
          language := data.language.getD "en"
          version := data.version.getD "home"
          hash_content := content_hash
          word_count :=
            match data.content with
            | some c => if c ≠ "" then countWords c else 0
            | none => 0
          updated_at := none }
      { db := fun u => if u = data.url then some fresh else db u
        wasInsert := true }

/-! ### One pass of the crawl loop (`MSDManualsCrawler.run`, lines 358-405)

The loop pops the queue head; a URL already in `processed_urls` is skipped
outright.  Otherwise the page is downloaded and parsed (both may raise),
saved unless the parser flagged it as a landing page, its links are
discovered and appended to the queue, the counters are bumped, and — on
every path, success or failure — the URL is added to `processed_urls`.
-/

/-- The observable outcome of downloading + parsing one URL: an exception
somewhere in the pipeline, or a fetched page carrying its parsed record
(`none` when the parser returned the landing-page signal) and its raw
anchors. -/
inductive PageOutcome where
  | raised (msg : String)
  | okPage (dataOpt : Option SaveData) (anchors : List (Link × String))

structure EngineState where
  state : StateData
  url_queue : List QueueEntry
  seen_urls : List AbsUrl
  db : AbsUrl → Option Article

/-- The body of one loop iteration once an entry has been popped: skip it
when already processed, otherwise download/parse/save/discover, and on
every path add the URL to `processed_urls`. -/
def process_entry (hash : String → String) (es : EngineState)
    (fetch : AbsUrl → PageOutcome) (ts : String) (entry : QueueEntry)
    (rest : List QueueEntry) : EngineState :=
      let url := entry.url
      if url ∈ es.state.processed_urls then { es with url_queue := rest }
      else
        match fetch url with
        | .raised msg =>
            let s1 := add_failed_url es.state url msg ts
            let s2 := { s1 with failed_downloads := s1.failed_downloads + 1 }
            { es with url_queue := rest, state := add_processed_url s2 url }
        | .okPage dataOpt anchors =>
            let saved :=
              match dataOpt with
              | some d =>
                  let r := save_to_database hash es.db d ts
                  (r.db,
                   if r.wasInsert then
                     { es.state with
                       new_articles_created := es.state.new_articles_created + 1 }
                   else
                     { es.state with
                       existing_articles_updated :=
                         es.state.existing_articles_updated + 1 })
              | none => (es.db, es.state)
            let db' := saved.1
            let s1 := saved.2
            let newEntries :=
              discover_urls url s1.processed_urls (extract_links anchors url)
                es.seen_urls
            let seen' := newEntries.foldl (fun acc e => setAdd acc e.url)
              es.seen_urls
            let s2 := { s1 with urls_processed := s1.urls_processed + 1 }
            let s3 :=
              match dataOpt with
              | none =>
                  { s2 with
                    landing_pages_skipped := s2.landing_pages_skipped + 1 }
              | some _ =>
                  { s2 with
                    successful_downloads := s2.successful_downloads + 1 }
            { state := add_processed_url s3 url
              url_queue := rest ++ newEntries
              seen_urls := seen'
              db := db' }

/-- One iteration of the `while` body of `MSDManualsCrawler.run`. -/
def run_iteration (hash : String → String) (es : EngineState)
    (fetch : AbsUrl → PageOutcome) (ts : String) : EngineState :=
  match es.url_queue with
  | [] => es
  | entry :: rest => process_entry hash es fetch ts entry rest

/-! ### Landing-page heuristic
(`MSDContentParser._is_nav_heavy_fallback`, `_max_token_repeat_ratio`)

A fallback page (whole-`body` extraction) is modelled by whether the soup
contains a `main` / `article` element, the concatenated non-empty tokens of
all `nav` regions, and the whitespace tokens of the cleaned body text
(`word_count = len(text.split())`, and the cleaned text is empty exactly
when it has no tokens).
-/

structure FallbackPage where
  hasMain : Bool
  hasArticle : Bool
  navTokens : List String
  bodyTokens : List String
deriving DecidableEq

/-- Embedding of `MSDContentParser._max_token_repeat_ratio`: share of the most common
token; defined as `1.0` on an empty token list. -/
def max_token_repeat (tokens : List String) : ℚ :=
  let toks := tokens.filter (· ≠ "")
  if toks = [] then 1
  else ((toks.map (fun t => toks.count t)).foldr max 0 : ℚ) / (toks.length : ℚ)

/-- The `nav_ratio` of the source: words inside `nav` regions over
`max(word_count, 1)`. -/
def nav_word_share (p : FallbackPage) : ℚ :=
  (p.navTokens.length : ℚ) / (max p.bodyTokens.length 1 : ℚ)

/-- Repeated-token share of the lower-cased body tokens. -/
def repeat_share (p : FallbackPage) : ℚ :=
  max_token_repeat (p.bodyTokens.map pyLower)

/-- Embedding of `MSDContentParser._is_nav_heavy_fallback`. -/
def is_nav_heavy_fallback (p : FallbackPage) : Bool :=
  if p.bodyTokens.length = 0 then true
  else if p.hasMain || p.hasArticle then false
  else
    let word_count := p.bodyTokens.length
    let nav_word_count := p.navTokens.length
    decide (word_count < 32 ∧
      ((0 < nav_word_count ∧ (45 : ℚ)/100 < nav_word_share p) ∨
        (55 : ℚ)/100 < repeat_share p))

/-! ### Quality scoring (`complete_data_system.py: QualityValidator`) -/

structure QualityRules where
  title_min_length : Nat
  content_min_length : Nat
  word_count_min : Nat
  max_repeated_chars : ℚ
  min_medical_terms : Nat
  min_quality_score : Int
deriving DecidableEq

def quality_rules : QualityRules :=
  { title_min_length := 5
    content_min_length := 100
    word_count_min := 10
    max_repeated_chars := 3/10
    min_medical_terms := 1
    min_quality_score := 30 }

/-- The candidate record fields `QualityValidator.validate_article` reads
(each `get` default already applied). -/
structure ArticleData where
  title : String
  content : String
  word_count : Nat
  medical_terms : List String
  url : String
  category : String
  language : String
deriving DecidableEq

/-- Embedding of `QualityValidator._has_repeated_content`: more than 30 percent of the
lines are duplicated meaningful lines (stripped length over 10, appearing
more than once). -/
def has_repeated_content (content : String) : Bool :=
  if content = "" then false
  else
    let lines := pySplitChar content ('\n')
    if lines.length < 3 then false
    else
      let meaningful := (lines.map pyStrip).filter (fun l => 10 < l.length)
      let repeated :=
        (meaningful.dedup.filter (fun l => 1 < meaningful.count l)).length
      decide (quality_rules.max_repeated_chars <
        (repeated : ℚ) / (lines.length : ℚ))

def sentence_seps : List Char := ['.', '!', '?', '。', '！', '？']

/-- Embedding of `QualityValidator._calculate_readability`. -/
def calculate_readability (content : String) : ℚ :=
  if content = "" then 0
  else
    let sentences :=
      (splitPred (fun c => sentence_seps.contains c) content.data []).filter
        (fun s => pyStrip s ≠ "")
    if sentences.length = 0 then 0
    else
      let avg : ℚ := ((sentences.map countWords).sum : ℚ) / (sentences.length : ℚ)
      if 30 ≤ avg ∧ avg ≤ 50 then 100
      else if avg < 30 then max 0 (avg * 3)
      else max 0 (100 - (avg - 50) * 2)

/-- The `quality_score` computed by `QualityValidator.validate_article`:
six weighted checks, a repeated-content penalty, a readability bonus, and
an upper cap of 100. -/
def validate_article (a : ArticleData) : Int :=
  let s1 : Int := if quality_rules.title_min_length ≤ a.title.length then 20 else 0
  let s2 : Int :=
    if quality_rules.content_min_length ≤ a.content.length then 30 else 0
  let s3 : Int := if quality_rules.word_count_min ≤ a.word_count then 20 else 0
  let s4 : Int :=
    if quality_rules.min_medical_terms ≤ a.medical_terms.length then 15 else 0
  let s5 : Int := if a.url ≠ "" ∧ pyStartsWith a.url "http" then 10 else 0
  let s6 : Int := if a.category ≠ "" ∧ a.language ≠ "" then 5 else 0
  let pen : Int := if has_repeated_content a.content then 10 else 0
  let s7 : Int := if 50 ≤ calculate_readability a.content then 5 else 0
  min 100 (s1 + s2 + s3 + s4 + s5 + s6 - pen + s7)

/-! ### Reporting (`MSDManualsCrawler._generate_report`, line 504)

The report prints only the most recent ten error-log entries
(`state.error_log[-10:]`); nothing ever truncates the log itself.
-/

def report_recent_errors (s : StateData) : List ErrorEntry :=
  s.error_log.drop (s.error_log.length - 10)

/-! ### Concrete instances used to settle the claims -/

/-- A server that answers 500 to the first request and 200 afterwards: one
retry would succeed. -/
def net0 : Nat → Nat := fun n => if n = 0 then 500 else 200

def urlA : AbsUrl := ⟨"www.msdmanuals.com", "/home/"⟩

def urlB : AbsUrl := ⟨"www.msdmanuals.com", "/home/health-topics/"⟩

def urlC : AbsUrl := ⟨"evil.example.com", "/home/"⟩

def urlD : AbsUrl := ⟨"www.msdmanuals.com", "/home/fails/"⟩

/-- Anchors of page A: one allowed new link B, one link C on a
non-allow-listed origin. -/
def anchorsA : List (Link × String) :=
  [(.absolute "www.msdmanuals.com" "/home/health-topics/", "B"),
   (.absolute "evil.example.com" "/home/", "C")]

def dataA : SaveData :=
  { url := urlA, title := some "MSD Manuals Home Page"
    content := some "some body text", category := none, subcategory := none
    language := none, version := none }

/-- Engine about to process seed page A with nothing seen or processed. -/
def engineA : EngineState :=
  { state := initialState
    url_queue := [⟨urlA, "seed", none⟩]
    seen_urls := []
    db := fun _ => none }

/-- Fetch behaviour for the end-to-end scenario: page A parses into a
record and carries the anchors to B and C. -/
def fetchA : AbsUrl → PageOutcome := fun _ => .okPage (some dataA) anchorsA

/-- Engine about to process URL D (used for the failure path). -/
def engineD : EngineState :=
  { state := initialState
    url_queue := [⟨urlD, "seed", none⟩]
    seen_urls := []
    db := fun _ => none }

/-- Fallback body of 20 distinct words with 10 nav words:
`wordCount = 20`, `navRatio = 0.50`. -/
def fallback20nav : FallbackPage :=
  { hasMain := false
    hasArticle := false
    navTokens := List.replicate 10 "n"
    bodyTokens := (List.range 20).map (fun i => "w" ++ toString i) }

/-- Fallback body of 40 distinct words with 20 nav words:
`wordCount = 40`, `navRatio = 0.50`. -/
def fallback40nav : FallbackPage :=
  { hasMain := false
    hasArticle := false
    navTokens := List.replicate 20 "n"
    bodyTokens := (List.range 40).map (fun i => "w" ++ toString i) }

/-- Fallback body of 20 words, 12 of them the same token, no nav words:
`wordCount = 20`, `navRatio = 0.0`, `repeatedRatio = 0.60`. -/
def fallback20repeat : FallbackPage :=
  { hasMain := false
    hasArticle := false
    navTokens := []
    bodyTokens := List.replicate 12 "x" ++ (List.range 8).map (fun i => "y" ++ toString i) }

/-- A stored article whose fingerprint (under the identity digest used in
the concrete check) equals the one recomputed from the new candidate. -/
def artOld : Article :=
  { url := urlA, title := "Old", content := "same body text"
    category := "c", subcategory := "s", version := "home", language := "en"
    hash_content := "same body text", word_count := 3, updated_at := none }

def dbOld : AbsUrl → Option Article := fun u => if u = urlA then some artOld else none

/-- A re-crawl of the same URL: byte-identical content (equal fingerprint)
but a different title. -/
def dataSameContent : SaveData :=
  { url := urlA, title := some "New", content := some "same body text"
    category := none, subcategory := none, language := none, version := none }

/-- An article failing every scoring check while triggering the
repeated-content penalty. -/
def negativeScoreArticle : ArticleData :=
  { title := "", content := "abcdefghijkl\nabcdefghijkl\nabcdefghijkl"
    word_count := 0, medical_terms := [], url := "", category := ""
    language := "" }

/-- Eleven distinct failing URLs. -/
def elevenUrls : List AbsUrl :=
  (List.range 11).map (fun i => ⟨"www.msdmanuals.com", "/p" ++ toString i ++ "/"⟩)

/-- The state after recording eleven distinct URL failures from a fresh
state. -/
def elevenFailuresState : StateData :=
  elevenUrls.foldl (fun st u => add_failed_url st u "boom" "t0") initialState

/-! ## Theorems -/

/-- Joining the re-parsed form of an absolute URL is the identity,
mirroring `urljoin(base, already_absolute) == already_absolute`. -/
theorem urljoin_toLink (base u : AbsUrl) : urljoin base (toLink u) = u := rfl

/-- C4: for every state, `save_state` followed by `load_state` yields a
state whose `processed_urls` and `failed_urls` agree with the saved ones as
sets and whose named counters all equal the saved counters. -/
theorem runstate_roundtrip (s : StateData) (now : String) :
    (load_state (save_state s now)).processed_urls.toFinset
        = s.processed_urls.toFinset ∧
    (load_state (save_state s now)).failed_urls.toFinset
        = s.failed_urls.toFinset ∧
    (load_state (save_state s now)).urls_processed = s.urls_processed ∧
    (load_state (save_state s now)).successful_downloads
        = s.successful_downloads ∧
    (load_state (save_state s now)).landing_pages_skipped
        = s.landing_pages_skipped ∧
    (load_state (save_state s now)).failed_downloads = s.failed_downloads ∧
    (load_state (save_state s now)).parse_errors = s.parse_errors ∧
    (load_state (save_state s now)).duplicates_found = s.duplicates_found ∧
    (load_state (save_state s now)).new_articles_created
        = s.new_articles_created ∧
    (load_state (save_state s now)).existing_articles_updated
        = s.existing_articles_updated := by
  refine ⟨?_, ?_, rfl, rfl, rfl, rfl, rfl, rfl, rfl, rfl⟩ <;> (ext x; simp [load_state, save_state])

/-- C5 counterexample: a `save_state` over a previous checkpoint `"prev"`
with new payload `"next"` passes through a file state (the truncated empty
file) that is neither the old checkpoint nor the new one, so a crash
between truncation and write corrupts the previous checkpoint. -/
theorem checkpoint_corruptible :
    "" ∈ file_states "prev" (save_state_ops "next") ∧
    "" ≠ "prev" ∧ "" ≠ "next" := by
  refine ⟨?_, by decide, by decide⟩
  simp [file_states, save_state_ops, apply_op]

/-- C5 amended: `save_state` writes directly into the checkpoint file —
open-with-truncate followed by the payload write, with no temporary file
and no rename — so the intermediate file state is empty: a crash there
leaves neither the old checkpoint nor the new one whenever both are
non-empty. -/
theorem checkpoint_write_not_atomic (old text : String) (h1 : old ≠ "")
    (h2 : text ≠ "") :
    file_states old (save_state_ops text) = ["", text] ∧
    "" ∈ file_states old (save_state_ops text) ∧ "" ≠ old ∧ "" ≠ text := by
  exact ⟨rfl, by simp [file_states, save_state_ops, apply_op],
    fun h => h1 h.symm, fun h => h2 h.symm⟩

theorem checkpoint_write_not_atomic_witness :
    file_states "prev" (save_state_ops "next") = ["", "next"] ∧
    "" ∈ file_states "prev" (save_state_ops "next") ∧
    "" ≠ "prev" ∧ "" ≠ "next" :=
  checkpoint_write_not_atomic "prev" "next" (by decide) (by decide)

/-- C8 amended: the error log is unbounded — every `add_failed_url` call
appends exactly one entry, so after any sequence of failures its length is
the initial length plus the number of calls; only the report trims to the
most recent ten entries. -/
theorem error_log_growth (s : StateData)
    (failures : List (AbsUrl × String × String)) :
    (failures.foldl (fun st f => add_failed_url st f.1 f.2.1 f.2.2)
        s).error_log.length
      = s.error_log.length + failures.length := by
  induction failures generalizing s with
  | nil => simp
  | cons f rest ih =>
      rw [List.foldl_cons, ih]
      simp [add_failed_url]
      omega

/-- C8 counterexample: eleven recorded failures leave eleven error-log
entries — more than the ten-entry most-recent window the report retains —
so no fixed bound `N` caps the log. -/
theorem error_log_exceeds_report_window :
    elevenFailuresState.error_log.length = 11 ∧
    ¬ elevenFailuresState.error_log.length ≤ 10 ∧
    (report_recent_errors elevenFailuresState).length = 10 := by decide

theorem error_log_growth_witness :
    (([] : List (AbsUrl × String × String)).foldl
        (fun st f => add_failed_url st f.1 f.2.1 f.2.2)
        initialState).error_log.length
      = initialState.error_log.length + ([] : List (AbsUrl × String × String)).length :=
  error_log_growth initialState []

/-- C10: a fallback page whose cleaned body text is empty (word count 0)
is always classified as a landing page, whatever the nav regions or the
presence of `main`/`article` elements — the guard precedes every threshold
test — and the repeated-token share of an empty token list is defined as
1.0. -/
theorem empty_fallback_always_landing :
    (∀ p : FallbackPage, p.bodyTokens = [] → is_nav_heavy_fallback p = true) ∧
    max_token_repeat [] = 1 := by
  refine ⟨fun p h => ?_, rfl⟩
  simp [is_nav_heavy_fallback, h]

theorem empty_fallback_always_landing_witness :
    is_nav_heavy_fallback ⟨true, true, ["nav", "junk"], []⟩ = true :=
  empty_fallback_always_landing.1 ⟨true, true, ["nav", "junk"], []⟩ rfl

set_option maxHeartbeats 1000000 in
/-- C7 amended: the quality score is capped above at 100 but not floored
at 0; its true range is `[-10, 100]` — the six weighted checks contribute
at least 0 each and the repeated-content penalty at most 10. -/
theorem quality_score_bounds (a : ArticleData) :
    -10 ≤ validate_article a ∧ validate_article a ≤ 100 := by
  unfold validate_article
  split_ifs <;> exact ⟨by decide, by decide⟩

/-- C7 counterexample: an article failing every check while triggering the
repeated-content penalty scores −10, outside the claimed interval
`[0, 100]`. -/
theorem quality_score_negative :
    validate_article negativeScoreArticle = -10 ∧
    ¬ (0 ≤ validate_article negativeScoreArticle) := by
  have hrep : has_repeated_content negativeScoreArticle.content = true := by
    have key : has_repeated_content negativeScoreArticle.content
        = decide (quality_rules.max_repeated_chars
            < ((1 : ℕ) : ℚ) / ((3 : ℕ) : ℚ)) := rfl
    rw [key, decide_eq_true_eq]
    norm_num [quality_rules]
  have hread : ¬ (50 ≤ calculate_readability negativeScoreArticle.content) := by
    have key : calculate_readability negativeScoreArticle.content
        = (if 30 ≤ ((3 : ℕ) : ℚ) / ((1 : ℕ) : ℚ) ∧
              ((3 : ℕ) : ℚ) / ((1 : ℕ) : ℚ) ≤ 50 then 100
           else if ((3 : ℕ) : ℚ) / ((1 : ℕ) : ℚ) < 30 then
             max 0 (((3 : ℕ) : ℚ) / ((1 : ℕ) : ℚ) * 3)
           else max 0 (100 - (((3 : ℕ) : ℚ) / ((1 : ℕ) : ℚ) - 50) * 2)) := rfl
    rw [key, if_neg (by norm_num), if_pos (by norm_num),
      max_eq_right (by norm_num)]
    norm_num
  unfold validate_article
  rw [hrep, if_neg (by decide), if_neg (by decide), if_neg (by decide),
    if_neg (by decide), if_neg (by decide), if_neg (by decide),
    if_pos rfl, if_neg hread]
  decide

theorem quality_score_bounds_witness :
    -10 ≤ validate_article ⟨"t", "c", 0, [], "", "", ""⟩ ∧
    validate_article ⟨"t", "c", 0, [], "", "", ""⟩ ≤ 100 :=
  quality_score_bounds ⟨"t", "c", 0, [], "", "", ""⟩

/-- Membership in a Python-set after an insertion. -/
theorem mem_setAdd {l : List AbsUrl} {u v : AbsUrl} :
    v ∈ setAdd l u ↔ v ∈ l ∨ v = u := by
  unfold setAdd
  split
  · exact ⟨Or.inl, fun h => h.elim id (fun e => by simpa [e] using by assumption)⟩
  · simp

theorem self_mem_setAdd (l : List AbsUrl) (u : AbsUrl) : u ∈ setAdd l u :=
  mem_setAdd.mpr (Or.inr rfl)

/-- C9: whatever the outcome of processing the dequeued URL — a parsed
page, a landing-page skip, or an exception recorded as a failure — the
loop iteration ends with that URL in `processed_urls`; the invariant
`failed_urls ⊆ processed_urls` is preserved; and a URL already in
`processed_urls` is dequeued without being re-attempted (the iteration
only drops it from the queue), so a URL that once failed is never
re-attempted in this run or any resumed run. -/
theorem processed_regardless_of_outcome (hash : String → String)
    (es : EngineState) (fetch : AbsUrl → PageOutcome) (ts : String)
    (entry : QueueEntry) (rest : List QueueEntry)
    (hq : es.url_queue = entry :: rest)
    (hsub : es.state.failed_urls ⊆ es.state.processed_urls) :
    entry.url ∈ (run_iteration hash es fetch ts).state.processed_urls ∧
    (run_iteration hash es fetch ts).state.failed_urls
        ⊆ (run_iteration hash es fetch ts).state.processed_urls ∧
    (entry.url ∈ es.state.processed_urls →
      run_iteration hash es fetch ts = { es with url_queue := rest }) := by
  have hboth : setAdd es.state.failed_urls entry.url
      ⊆ setAdd es.state.processed_urls entry.url := fun v hv =>
    mem_setAdd.mpr ((mem_setAdd.mp hv).imp (fun h => hsub h) id)
  have hmono : es.state.failed_urls
      ⊆ setAdd es.state.processed_urls entry.url := fun v hv =>
    mem_setAdd.mpr (Or.inl (hsub hv))
  have hrun : run_iteration hash es fetch ts
      = process_entry hash es fetch ts entry rest := by
    unfold run_iteration
    rw [hq]
  rw [hrun]
  unfold process_entry
  by_cases hmem : entry.url ∈ es.state.processed_urls
  · rw [if_pos hmem]
    exact ⟨hmem, hsub, fun _ => rfl⟩
  · rw [if_neg hmem]
    cases hfetch : fetch entry.url with
    | raised msg =>
        exact ⟨self_mem_setAdd _ _, hboth, fun h => absurd h hmem⟩
    | okPage dataOpt anchors =>
        cases dataOpt with
        | none =>
            exact ⟨self_mem_setAdd _ _, hmono, fun h => absurd h hmem⟩
        | some d =>
            refine ⟨self_mem_setAdd _ _, ?_, fun h => absurd h hmem⟩
            dsimp only
            cases hw : (save_to_database hash es.db d ts).wasInsert <;>
              exact hmono

theorem processed_regardless_witness :
    urlD ∈ (run_iteration (fun s => s) engineD
        (fun _ => PageOutcome.raised "boom") "t").state.processed_urls ∧
    (run_iteration (fun s => s) engineD
        (fun _ => PageOutcome.raised "boom") "t").state.failed_urls
      ⊆ (run_iteration (fun s => s) engineD
        (fun _ => PageOutcome.raised "boom") "t").state.processed_urls ∧
    (urlD ∈ engineD.state.processed_urls →
      run_iteration (fun s => s) engineD (fun _ => PageOutcome.raised "boom")
          "t" = { engineD with url_queue := [] }) :=
  processed_regardless_of_outcome (fun s => s) engineD
    (fun _ => PageOutcome.raised "boom") "t" ⟨urlD, "seed", none⟩ [] rfl
    (by decide)

/-- C1 counterexample: against a server whose first answer is the
retryable status 500 and whose second answer would be 200, one retry
(well within the configured maximum of 3 attempts) would succeed — yet
`_download_page` raises after the single attempt and the loop immediately
records the URL as a terminal failure in `failed_urls`. -/
theorem no_retry_counterexample :
    net0 0 = 500 ∧ (500 : ℕ) ∈ RETRY_CONFIG.retry_status_codes ∧
    net0 1 = 200 ∧ 1 < RETRY_CONFIG.max_retries ∧
    download_page net0 = Except.error "500" ∧
    (run_iteration (fun s => s) engineD
        (fun _ => PageOutcome.raised "500") "t").state.failed_urls
      = [urlD] := by
  refine ⟨rfl, by decide, rfl, by decide, rfl, ?_⟩
  decide

/-- C1 amended: no retry is performed.  `_download_page` issues exactly
one request and raises on any retryable status (its result is a function
of the first attempt alone, whatever later attempts would return), and
the run loop then converts that single failed attempt directly into a
terminal failure: the URL lands in `failed_urls`.  `RETRY_CONFIG` is
loaded but never consulted. -/
theorem download_no_retry (net : ℕ → ℕ)
    (h : net 0 ∈ RETRY_CONFIG.retry_status_codes) :
    download_page net = Except.error (toString (net 0)) ∧
    (∀ net2 : ℕ → ℕ, net2 0 = net 0 → download_page net2 = download_page net) ∧
    ∀ (hash : String → String) (es : EngineState) (entry : QueueEntry)
      (rest : List QueueEntry) (ts msg : String),
      es.url_queue = entry :: rest →
      entry.url ∉ es.state.processed_urls →
      entry.url ∈ (run_iteration hash es
          (fun _ => PageOutcome.raised msg) ts).state.failed_urls := by
  refine ⟨?_, ?_, ?_⟩
  · have hrange : 400 ≤ net 0 ∧ net 0 < 600 := by
      have h2 : net 0 = 429 ∨ net 0 = 500 ∨ net 0 = 502 ∨ net 0 = 503 ∨
          net 0 = 504 := by simpa [RETRY_CONFIG] using h
      omega
    unfold download_page raise_for_status
    rw [if_pos hrange]
  · intro net2 h2
    unfold download_page
    rw [h2]
  · intro hash es entry rest ts msg hq hmem
    have hrun : run_iteration hash es (fun _ => PageOutcome.raised msg) ts
        = process_entry hash es (fun _ => PageOutcome.raised msg) ts entry
            rest := by
      unfold run_iteration
      rw [hq]
    rw [hrun]
    unfold process_entry
    rw [if_neg hmem]
    exact self_mem_setAdd _ _

theorem download_no_retry_witness :
    download_page net0 = Except.error "500" ∧
    urlD ∈ (run_iteration (fun s => s) engineD
        (fun _ => PageOutcome.raised "500") "t").state.failed_urls := by
  refine ⟨(download_no_retry net0 (by decide)).1, ?_⟩
  exact (download_no_retry net0 (by decide)).2.2 (fun s => s) engineD
    ⟨urlD, "seed", none⟩ [] "t" "500" rfl (by decide)

/-- C3 counterexample: a re-crawl of a stored URL with byte-identical
content — the recomputed fingerprint equals the stored one — still
overwrites the stored fields (the title becomes the new `"New"` instead of
the stored `"Old"`), so no metadata-only touch distinct from a full update
exists; the stored fingerprint is never compared. -/
theorem fingerprint_ignored_counterexample :
    (fun s : String => s) (dataSameContent.content.getD "")
        = artOld.hash_content ∧
    artOld.title = "Old" ∧
    ((save_to_database (fun s => s) dbOld dataSameContent "t2").db
        urlA).map Article.title = some "New" ∧
    ((save_to_database (fun s => s) dbOld dataSameContent "t2").db
        urlA).map Article.title ≠ some artOld.title ∧
    (save_to_database (fun s => s) dbOld dataSameContent "t2").wasInsert
        = false := by
  refine ⟨rfl, rfl, ?_, ?_, ?_⟩ <;> decide

/-- C3 amended: the insert-versus-update decision is made solely by the
existence of a stored record for the URL — the stored fingerprint is
never read.  When a record exists, every field (title, content, category,
subcategory, language, version, word count, and the fingerprint itself)
is unconditionally overwritten from the candidate data, even when the
fingerprints are equal; when none exists, a fresh row is inserted.  The
same counter (`existing_articles_updated`) increments on every update. -/
theorem save_decision_by_existence (hash : String → String)
    (db : AbsUrl → Option Article) (data : SaveData) (now : String) :
    ((save_to_database hash db data now).wasInsert = (db data.url).isNone) ∧
    (∀ ex, db data.url = some ex →
      (save_to_database hash db data now).db data.url = some
        { url := ex.url
          title := data.title.getD ex.title
          content := data.content.getD ex.content
          category := data.category.getD ex.category
          subcategory := data.subcategory.getD ex.subcategory
          language := data.language.getD ex.language
          version := data.version.getD ex.version
          hash_content := hash (data.content.getD "")
          word_count :=
            match data.content with
            | some c => if c ≠ "" then countWords c else ex.word_count
            | none => ex.word_count
          updated_at := some now }) ∧
    (db data.url = none →
      (save_to_database hash db data now).db data.url = some
        { url := data.url
          title := data.title.getD ""
          content := data.content.getD ""
          category := data.category.getD ""
          subcategory := data.subcategory.getD ""
          language := data.language.getD "en"
          version := data.version.getD "home"
          hash_content := hash (data.content.getD "")
          word_count :=
            match data.content with
            | some c => if c ≠ "" then countWords c else 0
            | none => 0
          updated_at := none }) := by
  refine ⟨?_, ?_, ?_⟩
  · unfold save_to_database
    cases hdb : db data.url <;> simp [hdb]
  · intro ex hdb
    unfold save_to_database
    rw [hdb]
    simp
  · intro hdb
    unfold save_to_database
    rw [hdb]
    simp

theorem save_decision_by_existence_witness :
    ((save_to_database (fun s => s) dbOld dataSameContent "t2").wasInsert
        = (dbOld dataSameContent.url).isNone) ∧
    (save_to_database (fun s => s) dbOld dataSameContent "t2").db
        dataSameContent.url = some
      { url := artOld.url
        title := dataSameContent.title.getD artOld.title
        content := dataSameContent.content.getD artOld.content
        category := dataSameContent.category.getD artOld.category
        subcategory := dataSameContent.subcategory.getD artOld.subcategory
        language := dataSameContent.language.getD artOld.language
        version := dataSameContent.version.getD artOld.version
        hash_content := (fun s : String => s)
          (dataSameContent.content.getD "")
        word_count :=
          match dataSameContent.content with
          | some c => if c ≠ "" then countWords c else artOld.word_count
          | none => artOld.word_count
        updated_at := some "t2" } :=
  ⟨(save_decision_by_existence (fun s => s) dbOld dataSameContent "t2").1,
   (save_decision_by_existence (fun s => s) dbOld dataSameContent
      "t2").2.1 artOld (by decide)⟩

set_option maxRecDepth 16000 in
/-- C2: on a fallback page where no `main`/`article` element exists, the
verdict is a landing-page skip exactly when the word count is below 32
and either the nav-word share exceeds 0.45 or the repeated-token share
exceeds 0.55; otherwise the page is accepted.  In particular a fallback
body with word count 20 and nav share 0.50 is skipped, one with word
count 40 and nav share 0.50 is accepted, and one with word count 20, nav
share 0 and repeated share 0.60 is skipped. -/
theorem fallback_verdict :
    (∀ p : FallbackPage, p.hasMain = false → p.hasArticle = false →
      (is_nav_heavy_fallback p = true ↔
        (p.bodyTokens.length < 32 ∧
          ((45 : ℚ)/100 < nav_word_share p ∨
            (55 : ℚ)/100 < repeat_share p)))) ∧
    is_nav_heavy_fallback fallback20nav = true ∧
    is_nav_heavy_fallback fallback40nav = false ∧
    is_nav_heavy_fallback fallback20repeat = true := by
  refine ⟨?_, ?_, ?_, ?_⟩
  · intro p hm ha
    by_cases hb : p.bodyTokens.length = 0
    · have hbody : p.bodyTokens = [] := List.length_eq_zero.mp hb
      constructor
      · intro _
        refine ⟨by omega, Or.inr ?_⟩
        rw [repeat_share, hbody]
        norm_num [max_token_repeat]
      · intro _
        unfold is_nav_heavy_fallback
        rw [if_pos hb]
    · have hcond : ¬ ((p.hasMain || p.hasArticle) = true) := by
        rw [hm, ha]
        decide
      unfold is_nav_heavy_fallback
      rw [if_neg hb, if_neg hcond, decide_eq_true_eq]
      constructor
      · rintro ⟨h32, hd⟩
        exact ⟨h32, hd.imp (fun hh => hh.2) id⟩
      · rintro ⟨h32, hd⟩
        refine ⟨h32, ?_⟩
        rcases hd with hns | hrep
        · left
          refine ⟨?_, hns⟩
          by_contra hzero
          have hz : p.navTokens.length = 0 := by omega
          have hzero' : nav_word_share p = 0 := by
            rw [nav_word_share, hz]
            norm_num
          rw [hzero'] at hns
          norm_num at hns
        · right
          exact hrep
  · have k1 : is_nav_heavy_fallback fallback20nav
        = decide ((20 : ℕ) < 32 ∧
            ((0 < (10 : ℕ) ∧ (45 : ℚ)/100 < ((10 : ℕ) : ℚ)/((20 : ℕ) : ℚ)) ∨
              (55 : ℚ)/100 < ((1 : ℕ) : ℚ)/((20 : ℕ) : ℚ))) := rfl
    rw [k1, decide_eq_true_eq]
    norm_num
  · have k2 : is_nav_heavy_fallback fallback40nav
        = decide ((40 : ℕ) < 32 ∧
            ((0 < (20 : ℕ) ∧ (45 : ℚ)/100 < ((20 : ℕ) : ℚ)/((40 : ℕ) : ℚ)) ∨
              (55 : ℚ)/100 < ((1 : ℕ) : ℚ)/((40 : ℕ) : ℚ))) := rfl
    rw [k2]
    exact decide_eq_false (by norm_num)
  · have k3 : is_nav_heavy_fallback fallback20repeat
        = decide ((20 : ℕ) < 32 ∧
            ((0 < (0 : ℕ) ∧ (45 : ℚ)/100 < ((0 : ℕ) : ℚ)/((20 : ℕ) : ℚ)) ∨
              (55 : ℚ)/100 < ((12 : ℕ) : ℚ)/((20 : ℕ) : ℚ))) := rfl
    rw [k3, decide_eq_true_eq]
    norm_num

theorem fallback_verdict_witness :
    is_nav_heavy_fallback fallback20nav = true :=
  (fallback_verdict.1 fallback20nav rfl rfl).mpr
    ⟨by decide, Or.inl (by
      have k : nav_word_share fallback20nav
          = ((10 : ℕ) : ℚ)/((20 : ℕ) : ℚ) := rfl
      rw [k]
      norm_num)⟩

/-- The function `extract_links` yields exactly the resolutions of the page anchors
whose href and text are both non-empty. -/
theorem mem_extract_links (anchors : List (Link × String)) (base : AbsUrl)
    (u : AbsUrl) :
    (∃ t, (u, t) ∈ extract_links anchors base) ↔
      ∃ href t, (href, t) ∈ anchors ∧ linkTruthy href = true ∧ t ≠ "" ∧
        urljoin base href = u := by
  unfold extract_links
  constructor
  · rintro ⟨t, ht⟩
    rw [List.mem_filterMap] at ht
    obtain ⟨⟨href, txt⟩, hmem, hfn⟩ := ht
    by_cases hc : (linkTruthy href && decide (txt ≠ "")) = true
    · rw [if_pos hc] at hfn
      obtain ⟨hjoin, htxt⟩ := Prod.mk.injEq .. ▸ Option.some.injEq .. ▸ hfn
      rw [Bool.and_eq_true, decide_eq_true_eq] at hc
      exact ⟨href, txt, hmem, hc.1, hc.2, hjoin⟩
    · rw [if_neg hc] at hfn
      exact absurd hfn (by simp)
  · rintro ⟨href, t, hmem, htr, hne, hjoin⟩
    refine ⟨t, ?_⟩
    rw [List.mem_filterMap]
    refine ⟨(href, t), hmem, ?_⟩
    rw [if_pos (by rw [Bool.and_eq_true, decide_eq_true_eq]; exact ⟨htr, hne⟩),
      hjoin]

/-- Membership characterisation of `discover_urls` on already-resolved
links: a URL is enqueued exactly when some link carries it, the allow-list
filter accepts it, and it is neither seen nor processed. -/
theorem mem_discover_urls (pageUrl : AbsUrl) (processed : List AbsUrl)
    (links : List (AbsUrl × String)) (seen : List AbsUrl) (u : AbsUrl) :
    (∃ e ∈ discover_urls pageUrl processed links seen, e.url = u) ↔
      ((∃ t, (u, t) ∈ links) ∧ is_allowed_url (toLink u) = true ∧
        u ∉ seen ∧ u ∉ processed) := by
  induction links generalizing seen with
  | nil => simp [discover_urls]
  | cons a rest ih =>
      obtain ⟨v, t⟩ := a
      simp only [discover_urls, urljoin_toLink]
      by_cases hA : is_allowed_url (toLink v) = true
      · rw [if_pos hA]
        by_cases hS : v ∉ seen ∧ v ∉ processed
        · rw [if_pos hS]
          constructor
          · rintro ⟨e, he, heq⟩
            rcases List.mem_cons.mp he with rfl | hetail
            · obtain rfl : v = u := heq
              exact ⟨⟨t, List.mem_cons_self _ _⟩, hA, hS.1, hS.2⟩
            · obtain ⟨⟨t', ht'⟩, hAu, hns', hnp⟩ :=
                (ih (setAdd seen v)).mp ⟨e, hetail, heq⟩
              exact ⟨⟨t', List.mem_cons_of_mem _ ht'⟩, hAu,
                fun hu => hns' (mem_setAdd.mpr (Or.inl hu)), hnp⟩
          · rintro ⟨⟨t', ht'⟩, hAu, hns, hnp⟩
            by_cases huv : u = v
            · subst huv
              exact ⟨⟨u, t, some pageUrl⟩, List.mem_cons_self _ _, rfl⟩
            · rcases List.mem_cons.mp ht' with heq | ht'rest
              · exact absurd (congrArg Prod.fst heq) huv
              · have hns' : u ∉ setAdd seen v := fun hu =>
                  (mem_setAdd.mp hu).elim hns huv
                obtain ⟨e, he, heq⟩ := (ih (setAdd seen v)).mpr
                  ⟨⟨t', ht'rest⟩, hAu, hns', hnp⟩
                exact ⟨e, List.mem_cons_of_mem _ he, heq⟩
        · rw [if_neg hS, ih seen]
          constructor
          · rintro ⟨⟨t', ht'⟩, hAu, hns, hnp⟩
            exact ⟨⟨t', List.mem_cons_of_mem _ ht'⟩, hAu, hns, hnp⟩
          · rintro ⟨⟨t', ht'⟩, hAu, hns, hnp⟩
            rcases List.mem_cons.mp ht' with heq | ht'rest
            · obtain rfl : u = v := congrArg Prod.fst heq
              exact absurd ⟨hns, hnp⟩ hS
            · exact ⟨⟨t', ht'rest⟩, hAu, hns, hnp⟩
      · rw [if_neg hA, ih seen]
        constructor
        · rintro ⟨⟨t', ht'⟩, hAu, hns, hnp⟩
          exact ⟨⟨t', List.mem_cons_of_mem _ ht'⟩, hAu, hns, hnp⟩
        · rintro ⟨⟨t', ht'⟩, hAu, hns, hnp⟩
          rcases List.mem_cons.mp ht' with heq | ht'rest
          · obtain rfl : u = v := congrArg Prod.fst heq
            exact absurd hAu hA
          · exact ⟨⟨t', ht'rest⟩, hAu, hns, hnp⟩

/-- C6: every anchor of a fetched page is resolved to an absolute URL
against the page URL, and the resolved URL is enqueued if and only if its
origin is on the allow-list, its path matches no disallow entry (the
`is_allowed_url` filter), and it is neither in the seen-set nor in the
processed set.  In the end-to-end scenario — page A links to the new
allowed URL B and to C on a disallowed origin — one iteration leaves the
frontier holding exactly B, `processed_urls = [A]`, and C nowhere. -/
theorem discovery_filter :
    (∀ (pageUrl : AbsUrl) (processed seen : List AbsUrl)
        (anchors : List (Link × String)) (u : AbsUrl),
      (∃ e ∈ discover_urls pageUrl processed (extract_links anchors pageUrl)
          seen, e.url = u) ↔
        ((∃ href t, (href, t) ∈ anchors ∧ linkTruthy href = true ∧ t ≠ "" ∧
            urljoin pageUrl href = u) ∧
          is_allowed_url (toLink u) = true ∧ u ∉ seen ∧ u ∉ processed)) ∧
    (run_iteration (fun s => s) engineA fetchA "t").url_queue
        = [⟨urlB, "B", some urlA⟩] ∧
    (run_iteration (fun s => s) engineA fetchA "t").state.processed_urls
        = [urlA] ∧
    (run_iteration (fun s => s) engineA fetchA "t").seen_urls = [urlB] ∧
    ¬ (∃ e ∈ (run_iteration (fun s => s) engineA fetchA "t").url_queue,
        e.url = urlC) := by
  refine ⟨?_, by decide, by decide, by decide, by decide⟩
  intro pageUrl processed seen anchors u
  rw [mem_discover_urls, mem_extract_links]

theorem discovery_filter_witness :
    ∃ e ∈ discover_urls urlA [] (extract_links anchorsA urlA) [],
      e.url = urlB :=
  (discovery_filter.1 urlA [] [] anchorsA urlB).mpr
    ⟨⟨Link.absolute "www.msdmanuals.com" "/home/health-topics/", "B",
      by decide, by decide, by decide, rfl⟩, by decide, by decide, by decide⟩

end Doctor
